import Mathlib

/-!
Shallow embedding of the Azure Local physical-network config tool's
topology-to-switch-model converter, and proofs of the specification claims
about it.

Embedded sources:
* `src/constants.py` — vendor/firmware tables, switch roles, MTU and
  redundancy constants, VLAN group map, BMC hardcoded VLAN table.
* `src/utils.py` — `infer_firmware`, `classify_vlan_group`.
* `src/convertors/convertors_bmc_switch_json.py` — `BMCSwitchConverter`'s
  build helpers (`_build_switch_info`, `_build_vlans`, `_build_interfaces`,
  `_build_port_channels`, `_build_static_routes`).

Python dictionaries coming from the topology JSON are embedded as structures
whose fields carry the `dict.get` defaults used by the converter; machine-level
string operations (`str.upper`, `str.lower`, `str.strip`, `str.startswith`,
`ipaddress` parsing) are embedded at the character-list level so every
definition evaluates inside the kernel.  Python's exception flow in
`_build_vlans` (the `try`/`except (ValueError, TypeError)` around
`ipaddress.IPv4Network(...)` and `broadcast_address - 1`) is embedded with
`Option`: `none` is a raised-and-caught `ValueError`/`TypeError`.
Mutable state (the module-global `BMC_HARDCODED_VLANS` table and the input
topology) is embedded by explicit state passing: each build step takes the
state and returns the state it leaves behind next to its result.
-/

namespace AzLocal

/-! ## Python string primitives (ASCII inputs) -/

/-- Python `str.upper()` for the ASCII identifiers appearing in topologies. -/
def pyUpper (s : String) : String := String.mk (s.data.map Char.toUpper)

/-- Python `str.lower()` for the ASCII identifiers appearing in topologies. -/
def pyLower (s : String) : String := String.mk (s.data.map Char.toLower)

/-- Python `str.strip()` (whitespace removal at both ends). -/
def pyStrip (s : String) : String :=
  String.mk (((s.data.dropWhile Char.isWhitespace).reverse.dropWhile Char.isWhitespace).reverse)

/-- Python `str.startswith(p)`. -/
def pyStartsWith (s p : String) : Bool := p.data.isPrefixOf s.data

/-! ## constants.py -/

def CISCO : String := "cisco"

def DELL : String := "dellemc"

def NXOS : String := "nxos"

def OS10 : String := "os10"

/-- Embeds `VENDOR_FIRMWARE_MAP` (constants.py); Python 3.7+ dicts preserve insertion
order, so the table is a list of pairs in source order. -/
def VENDOR_FIRMWARE_MAP : List (String × String) := [(CISCO, NXOS), (DELL, OS10)]

def TOR1 : String := "TOR1"

def TOR2 : String := "TOR2"

def BMC : String := "BMC"

def JUMBO_MTU : Nat := 9216

def HSRP : String := "hsrp"

def REDUNDANCY_PRIORITY_ACTIVE : Nat := 150

def REDUNDANCY_PRIORITY_STANDBY : Nat := 140

def PATTERN_HYPERCONVERGED : String := "hyperconverged"

def PATTERN_FULLY_CONVERGED : String := "fully_converged"

def PATTERN_SWITCHED : String := "switched"

def PATTERN_SWITCHLESS : String := "switchless"

/-- Embeds `VLAN_GROUP_MAP` (constants.py), in source (= Python dict insertion) order. -/
def VLAN_GROUP_MAP : List (String × String) :=
  [("HNVPA", "C"), ("INFRA", "M"), ("TENANT", "C"), ("L3FORWARD", "C"),
   ("STORAGE", "S"), ("UNUSED", "UNUSED"), ("NATIVE", "NATIVE")]

/-- Supernet GroupName prefixes that produce VLANs on the BMC switch
(`BMC_RELEVANT_GROUPS` in constants.py). -/
def BMC_RELEVANT_GROUPS : List String := [BMC, "UNUSED", "NATIVE"]

/-! ## Output record types (the standardized JSON the converter emits) -/

/-- The `interface` sub-dict attached to a BMC VLAN entry by `_build_vlans`. -/
structure SviInterface where
  ip : String
  cidr : Nat
  mtu : Nat
deriving Repr, DecidableEq

/-- One entry of the emitted `vlans` list.  `shutdown` and `interface` embed the
optional dict keys (absent key = `none`). -/
structure VlanEntry where
  vlan_id : Nat
  name : String
  shutdown : Option Bool := none
  interface : Option SviInterface := none
deriving Repr, DecidableEq

/-- Embeds `BMC_HARDCODED_VLANS` (constants.py). -/
def BMC_HARDCODED_VLANS : List VlanEntry :=
  [{ vlan_id := 2, name := "UNUSED_VLAN", shutdown := some true },
   { vlan_id := 99, name := "NATIVE_VLAN" }]

/-- One entry of the emitted `static_routes` list.  `route_prefix` embeds the
JSON key `"prefix"`. -/
structure StaticRoute where
  route_prefix : String
  next_hop : String
  description : String
deriving Repr, DecidableEq

/-- The dict returned by `_build_switch_info`; `type_field` embeds the JSON key
`"type"` (which may be `None` since `switch_data.get("Type")` has no default). -/
structure SwitchInfo where
  make : String
  model : String
  type_field : Option String
  hostname : String
  version : String
  firmware : String
  site : String
deriving Repr, DecidableEq

/-! ## Topology input model (the dict shapes `BMCSwitchConverter` reads) -/

/-- The `IPv4` sub-dict of a supernet, with the `dict.get` defaults used by the
converter: absent keys are `none` (or the recorded default). -/
structure IPv4Cfg where
  Name : Option String := none
  VlanId : Option Nat := none
  VLANID : Option Nat := none
  SwitchSVI : Bool := false
  Gateway : String := ""
  Network : Option String := none
  Cidr : Option Nat := none
deriving Repr, DecidableEq

/-- One entry of `InputData.Supernets`. -/
structure Supernet where
  GroupName : String := ""
  IPv4 : IPv4Cfg := {}
deriving Repr, DecidableEq

/-- One entry of `InputData.MainEnvData` (`.get("Site", "")`). -/
structure EnvEntry where
  Site : String := ""
deriving Repr, DecidableEq

/-- A switch descriptor from `InputData.Switches`. -/
structure SwitchData where
  Make : String := ""
  Model : String := ""
  Type_ : Option String := none
  Hostname : String := ""
  Firmware : String := ""
deriving Repr, DecidableEq

/-- The parts of the topology document the BMC build helpers read. -/
structure InputData where
  MainEnvData : List EnvEntry := []
  Supernets : List Supernet := []
deriving Repr, DecidableEq

/-- An opaque JSON value: the BMC interface templates are copied verbatim, so
their entries are carried as uninterpreted JSON documents. -/
inductive JsonDoc where
  | null : JsonDoc
  | bool : Bool → JsonDoc
  | num : Int → JsonDoc
  | str : String → JsonDoc
  | arr : List JsonDoc → JsonDoc
  | obj : List (String × JsonDoc) → JsonDoc

/-- The parts of a loaded BMC interface template the converter reads:
`template_data.get("interface_templates", {}).get("common", [])` and
`template_data.get("port_channels", [])` — absent keys collapse to `[]`. -/
structure TemplateData where
  common : List JsonDoc := []
  port_channels : List JsonDoc := []

/-! ## utils.py -/

/-- Embeds `infer_firmware` (utils.py): `VENDOR_FIRMWARE_MAP.get(make.lower().strip(), ...)`
with the lowered/stripped make itself as the default. -/
def infer_firmware (make : String) : String :=
  let make_lower := pyStrip (pyLower make)
  match VENDOR_FIRMWARE_MAP.find? (fun e => e.1 == make_lower) with
  | some e => e.2
  | none => make_lower

/-- The `for prefix, symbol in VLAN_GROUP_MAP.items()` loop body of
`classify_vlan_group` (utils.py), recursing over the ordered table. -/
def classifyGo (upper : String) : List (String × String) → Option String
  | [] => none
  | e :: rest => if pyStartsWith upper e.1 then some e.2 else classifyGo upper rest

/-- Embeds `classify_vlan_group` (utils.py): first prefix of `VLAN_GROUP_MAP` that the
upper-cased label starts with wins; no match gives `None`. -/
def classify_vlan_group (group_name : String) : Option String :=
  classifyGo (pyUpper group_name) VLAN_GROUP_MAP

/-! ## IPv4 parsing (the `ipaddress` calls made by `_build_vlans`) -/

/-- Embeds `ipaddress` octet parsing (`_parse_octet`): decimal digits only, at most 3
characters, no leading zero, value at most 255; `none` is a raised `ValueError`. -/
def parseOctet (cs : List Char) : Option Nat :=
  if cs.length = 0 ∨ 3 < cs.length then none
  else if ¬ cs.all Char.isDigit then none
  else if 1 < cs.length ∧ cs.headD ' ' = '0' then none
  else
    let n := cs.foldl (fun acc c => acc * 10 + (c.toNat - 48)) 0
    if n ≤ 255 then some n else none

/-- Split a character list at every `'.'` (how `ipaddress` tokenizes a dotted
quad before octet parsing). -/
def splitOnDot : List Char → List (List Char)
  | [] => [[]]
  | c :: rest =>
    if c = '.' then [] :: splitOnDot rest
    else
      match splitOnDot rest with
      | h :: t => (c :: h) :: t
      | [] => [[c]]

/-- Embeds `ipaddress.IPv4Address` string parsing as a 32-bit value: exactly four
dot-separated octets; `none` is a raised `ValueError`. -/
def parseIPv4Address (s : String) : Option Nat :=
  match splitOnDot s.data with
  | [a, b, c, d] =>
    match parseOctet a, parseOctet b, parseOctet c, parseOctet d with
    | some x, some y, some z, some w => some (((x * 256 + y) * 256 + z) * 256 + w)
    | _, _, _, _ => none
  | _ => none

/-- Embeds `ipaddress.IPv4Network(f"{network}/{cidr}", strict=False).broadcast_address`
as a 32-bit value.  `none` is a raised `ValueError`/`TypeError`: a missing
`Network` key (the f-string yields `"None/..."`), an unparseable address, or a
prefix above 32.  With `strict=False` the host bits are masked before the
broadcast address is formed. -/
def parseNetworkBroadcast (network : Option String) (cidr : Nat) : Option Nat :=
  match network with
  | none => none
  | some s =>
    match parseIPv4Address s with
    | none => none
    | some addr =>
      if cidr ≤ 32 then
        let hostSize := 2 ^ (32 - cidr)
        some (addr - addr % hostSize + hostSize - 1)
      else none

/-- Embeds `str(IPv4Address(n))` — the dotted-quad rendering of a 32-bit value. -/
def ipToString (n : Nat) : String :=
  toString (n / 16777216 % 256) ++ "." ++ toString (n / 65536 % 256) ++ "." ++
    toString (n / 256 % 256) ++ "." ++ toString (n % 256)

/-! ## convertors_bmc_switch_json.py — build helpers -/

/-- Embeds `_build_switch_info` (lines 109–123): metadata dict from the switch
descriptor plus `MainEnvData[0].Site` (empty when `MainEnvData` is empty or the
key is missing, whose `.get` default `[{}]` yields the same empty site). -/
def build_switch_info (input_data : InputData) (switch_data : SwitchData) : SwitchInfo :=
  let sw_make := pyLower switch_data.Make
  let site := match input_data.MainEnvData with
    | [] => ""
    | e :: _ => e.Site
  { make := sw_make
    model := pyLower switch_data.Model
    type_field := switch_data.Type_
    hostname := pyLower switch_data.Hostname
    version := pyLower switch_data.Firmware
    firmware := infer_firmware sw_make
    site := if site = "" then "" else pyLower site }

/-- Embeds `ipv4.get("VlanId") or ipv4.get("VLANID") or 0` with Python truthiness
(`None` and `0` are both falsy). -/
def vlanIdOf (ipv4 : IPv4Cfg) : Nat :=
  match ipv4.VlanId with
  | some n =>
    if n ≠ 0 then n
    else match ipv4.VLANID with
      | some m => if m ≠ 0 then m else 0
      | none => 0
  | none =>
    match ipv4.VLANID with
    | some m => if m ≠ 0 then m else 0
    | none => 0

/-- Embeds `_is_bmc_relevant_vlan` (lines 180–182). -/
def is_bmc_relevant_vlan (group_name : String) : Bool :=
  BMC_RELEVANT_GROUPS.any (fun pfx => pyStartsWith group_name pfx)

/-- Lines 156–174 of `_build_vlans`: the SVI computed for a BMC management VLAN
that owns the switch SVI.  The `except (ValueError, TypeError)` fallback to the
gateway covers a missing/unparseable network string, an out-of-range prefix,
and the `AddressValueError` (a `ValueError`) that `broadcast_address - 1`
raises when the broadcast address is `0.0.0.0` — all of which sit inside the
same `try` block. -/
def sviFor (ipv4 : IPv4Cfg) : Option SviInterface :=
  let gateway_ip := ipv4.Gateway
  let bmc_ip :=
    if gateway_ip ≠ "" then
      match parseNetworkBroadcast ipv4.Network (ipv4.Cidr.getD 24) with
      | some bcast => if bcast = 0 then gateway_ip else ipToString (bcast - 1)
      | none => gateway_ip
    else ""
  if bmc_ip ≠ "" then
    some { ip := bmc_ip, cidr := ipv4.Cidr.getD 24, mtu := JUMBO_MTU }
  else none

/-- One iteration of the `for net in supernets` loop of `_build_vlans`
(lines 139–176); `none` means the iteration appends nothing (`continue`). -/
def vlanEntryOf (hardcoded_ids : List Nat) (net : Supernet) : Option VlanEntry :=
  let group_name := pyUpper net.GroupName
  let ipv4 := net.IPv4
  let vlan_id := vlanIdOf ipv4
  if vlan_id = 0 ∨ vlan_id ∈ hardcoded_ids then none
  else if is_bmc_relevant_vlan group_name then
    some { vlan_id := vlan_id
           name := ipv4.Name.getD ("VLAN_" ++ toString vlan_id)
           interface :=
             if pyStartsWith group_name BMC && ipv4.SwitchSVI then sviFor ipv4 else none }
  else none

/-- The VLAN-entry ordering used by `sorted(vlans_out, key=lambda v: v["vlan_id"])`. -/
def vlanLE (a b : VlanEntry) : Prop := a.vlan_id ≤ b.vlan_id

instance : DecidableRel vlanLE := fun a b => (inferInstance : Decidable (a.vlan_id ≤ b.vlan_id))

instance : IsTotal VlanEntry vlanLE := ⟨fun a b => Nat.le_total a.vlan_id b.vlan_id⟩

instance : IsTrans VlanEntry vlanLE := ⟨fun _ _ _ => Nat.le_trans⟩

/-- Embeds `hardcoded_ids = {v["vlan_id"] for v in BMC_HARDCODED_VLANS}` (line 135). -/
def hardcodedIds (table : List VlanEntry) : List Nat := table.map (fun v => v.vlan_id)

/-- Embeds `_build_vlans` (lines 127–178), parameterized by the global hardcoded table
it reads.  The initial `[deepcopy(v) for v in BMC_HARDCODED_VLANS]` is a value
copy; Python's stable `sorted(..., key=...)` is embedded as the stable
insertion sort. -/
def build_vlans_from (table : List VlanEntry) (supernets : List Supernet) : List VlanEntry :=
  List.insertionSort vlanLE (table ++ supernets.filterMap (vlanEntryOf (hardcodedIds table)))

/-- Embeds `_build_vlans` reading the module-global `BMC_HARDCODED_VLANS`. -/
def build_vlans (input_data : InputData) : List VlanEntry :=
  build_vlans_from BMC_HARDCODED_VLANS input_data.Supernets

/-- The `for net in supernets` loop of `_build_static_routes` (lines 216–232):
skip non-BMC groups, return the single default route at the first non-empty
BMC gateway, fall through to `[]`. -/
def build_static_routes_go : List Supernet → List StaticRoute
  | [] => []
  | net :: rest =>
    let group_name := pyUpper net.GroupName
    if pyStartsWith group_name BMC then
      let gateway := net.IPv4.Gateway
      if gateway ≠ "" then
        [{ route_prefix := "0.0.0.0/0", next_hop := gateway,
           description := "BMC default gateway" }]
      else build_static_routes_go rest
    else build_static_routes_go rest

/-- Embeds `_build_static_routes` (lines 208–232). -/
def build_static_routes (input_data : InputData) : List StaticRoute :=
  build_static_routes_go input_data.Supernets

/-- Embeds `_build_interfaces` (lines 186–192): fatal `ValueError` when the template's
common-interfaces list is empty/missing, else a deep copy of that list (a value
copy in this embedding). -/
def build_interfaces (template_data : TemplateData) : Except String (List JsonDoc) :=
  let common_templates := template_data.common
  if common_templates.isEmpty then
    Except.error "No common interfaces found in BMC template"
  else
    Except.ok common_templates

/-- Embeds `_build_port_channels` (lines 196–204): a deep copy of the template's
port-channel list (a value copy in this embedding). -/
def build_port_channels (template_data : TemplateData) : List JsonDoc :=
  template_data.port_channels

/-! ## Explicit-state embedding of mutability

The Python build helpers share two pieces of aliasable state: the input
topology dict and template dict held by the converter, and the module-global
`BMC_HARDCODED_VLANS` table.  Each helper below takes that state and returns
the state it leaves behind next to its result.  The bodies are translations of
the source: every statement in them only reads the state (`dict.get`) and
builds fresh dicts — `deepcopy` where sub-structures are taken over — so each
returns the state it received. -/

/-- The aliasable state a BMC conversion runs against. -/
structure ConvState where
  input_data : InputData
  template_data : TemplateData
  bmc_hardcoded_vlans : List VlanEntry

/-- Embeds `_build_switch_info` with explicit state. -/
def build_switch_infoS (st : ConvState) (switch_data : SwitchData) : ConvState × SwitchInfo :=
  (st, build_switch_info st.input_data switch_data)

/-- Embeds `_build_vlans` with explicit state (it reads both the topology and the
global hardcoded table). -/
def build_vlansS (st : ConvState) : ConvState × List VlanEntry :=
  (st, build_vlans_from st.bmc_hardcoded_vlans st.input_data.Supernets)

/-- Embeds `_build_static_routes` with explicit state. -/
def build_static_routesS (st : ConvState) : ConvState × List StaticRoute :=
  (st, build_static_routes st.input_data)

/-- Embeds `_build_interfaces` with explicit state. -/
def build_interfacesS (st : ConvState) : ConvState × Except String (List JsonDoc) :=
  (st, build_interfaces st.template_data)

/-- Embeds `_build_port_channels` with explicit state. -/
def build_port_channelsS (st : ConvState) : ConvState × List JsonDoc :=
  (st, build_port_channels st.template_data)

/-! ## TOR builder pieces modelled from the spec

The TOR converter (`StandardJSONBuilder` in
`src/convertors/convertors_lab_switch_json.py`) is not present under `src/`;
only its unit tests and the constants it shares are.  The two definitions below
are therefore modelled from the spec, not translated from source. -/

/-- Modelled from the spec: `StandardJSONBuilder`'s deployment-pattern
normalization, whose source file `src/convertors/convertors_lab_switch_json.py`
is missing from the repository snapshot.  Per the spec, construction
lower-cases the free-text pattern and remaps the customer-facing
"hyperconverged" to the internal "fully_converged"; "switched" and
"switchless" pass through. -/
def normalize_deployment_pattern (p : String) : String :=
  let lowered := pyLower p
  if lowered = PATTERN_HYPERCONVERGED then PATTERN_FULLY_CONVERGED else lowered

/-- The `redundancy` block attached to an SVI. -/
structure Redundancy where
  redundancy_type : String
  priority : Nat
  virtual_ip : String
deriving Repr, DecidableEq

/-- Modelled from the spec: the redundancy block `StandardJSONBuilder.build_vlans`
(missing source file `src/convertors/convertors_lab_switch_json.py`) attaches to
an infrastructure VLAN that defines a gateway — protocol HSRP, priority the
fixed active constant for TOR1 and the fixed standby constant for TOR2, virtual
IP the range's gateway. -/
def tor_redundancy (switch_type : String) (gateway : String) : Redundancy :=
  { redundancy_type := HSRP
    priority := if switch_type = TOR1 then REDUNDANCY_PRIORITY_ACTIVE
                else REDUNDANCY_PRIORITY_STANDBY
    virtual_ip := gateway }

/-! ## Concrete example inputs used by witnesses and counterexamples -/

/-- Two BMC-relevant supernets carrying the same non-hardcoded VLAN id 100. -/
def dupVlanInput : InputData :=
  { Supernets :=
      [{ GroupName := "BMCRack1", IPv4 := { VlanId := some 100, Name := some "BMC_A" } },
       { GroupName := "BMCRack2", IPv4 := { VlanId := some 100, Name := some "BMC_B" } }] }

/-- A BMC management supernet whose `Network` string is not a parseable IPv4
address. -/
def badNetworkSupernet : Supernet :=
  { GroupName := "BMCMgmt"
    IPv4 := { VlanId := some 125, Name := some "BMC_Mgmt_125", SwitchSVI := true,
              Gateway := "10.1.1.1", Network := some "not-an-ip", Cidr := some 24 } }

def badNetworkInput : InputData := { Supernets := [badNetworkSupernet] }

/-- A well-formed BMC management supernet (network 10.0.0.0/24, gateway
10.0.0.1, VLAN 125). -/
def goodSviSupernet : Supernet :=
  { GroupName := "BMCMgmt"
    IPv4 := { VlanId := some 125, Name := some "BMC_Mgmt_125", SwitchSVI := true,
              Gateway := "10.0.0.1", Network := some "10.0.0.0", Cidr := some 24 } }

def goodSviInput : InputData := { Supernets := [goodSviSupernet] }

/-- A BMC management supernet on `0.0.0.0/32`: the network parses but its
broadcast address is `0.0.0.0`, so `broadcast_address - 1` underflows. -/
def zeroNetworkSupernet : Supernet :=
  { GroupName := "BMCZero"
    IPv4 := { VlanId := some 70, Name := some "BMC_Zero", SwitchSVI := true,
              Gateway := "10.9.9.9", Network := some "0.0.0.0", Cidr := some 32 } }

def zeroNetworkInput : InputData := { Supernets := [zeroNetworkSupernet] }

/-! ## Helper lemmas -/

/-- String concatenation concatenates the underlying character lists. -/
theorem string_data_append (s t : String) : (s ++ t).data = s.data ++ t.data := by
  cases s; cases t; rfl

/-- A dotted-quad rendering is never the empty string. -/
theorem ipToString_ne_empty (n : Nat) : ipToString n ≠ "" := by
  have hdot : ('.' : Char) ∈ (ipToString n).data := by
    rw [ipToString, string_data_append, string_data_append, string_data_append,
        string_data_append, string_data_append, string_data_append]
    have hc : ('.' : Char) ∈ (".").data := by decide
    simp only [List.mem_append]
    tauto
  intro h
  rw [h] at hdot
  exact absurd hdot (by decide)

/-- A VLAN entry produced from a supernet never carries id 0 or a hardcoded id. -/
theorem vlanEntryOf_id_valid {ids : List Nat} {net : Supernet} {e : VlanEntry}
    (h : vlanEntryOf ids net = some e) : e.vlan_id ∉ ids ∧ e.vlan_id ≠ 0 := by
  simp only [vlanEntryOf] at h
  split at h
  · exact absurd h (by simp)
  · split at h
    · rename_i h1 _
      rw [Option.some.injEq] at h
      subst h
      push_neg at h1
      exact ⟨h1.2, h1.1⟩
    · exact absurd h (by simp)

/-- Hardcoded VLAN ids never occur among the entries built from supernets. -/
theorem countP_vlanEntryOf_hardcoded_zero (k : Nat)
    (hk : k ∈ hardcodedIds BMC_HARDCODED_VLANS) (nets : List Supernet) :
    List.countP (fun v => v.vlan_id == k)
      (nets.filterMap (vlanEntryOf (hardcodedIds BMC_HARDCODED_VLANS))) = 0 := by
  rw [List.countP_eq_zero]
  intro e he
  obtain ⟨net, _, hsome⟩ := List.mem_filterMap.mp he
  have hv := vlanEntryOf_id_valid hsome
  simp only [beq_iff_eq]
  intro hek
  exact hv.1 (by rw [hek]; exact hk)

/-- The `classify_vlan_group` loop is a first-match lookup over the table. -/
theorem classifyGo_eq_find (u : String) (l : List (String × String)) :
    classifyGo u l = (l.find? (fun e => pyStartsWith u e.1)).map (fun e => e.2) := by
  induction l with
  | nil => rfl
  | cons e rest ih =>
    by_cases h : pyStartsWith u e.1
    · simp [classifyGo, List.find?_cons_of_pos, h]
    · simp [classifyGo, List.find?_cons_of_neg, h, ih]

/-- The `_build_static_routes` loop is a first-match lookup over the supernets. -/
theorem build_static_routes_go_eq_find (l : List Supernet) :
    build_static_routes_go l =
      (match l.find?
          (fun n => pyStartsWith (pyUpper n.GroupName) BMC && n.IPv4.Gateway != "") with
       | some n => [{ route_prefix := "0.0.0.0/0", next_hop := n.IPv4.Gateway,
                      description := "BMC default gateway" }]
       | none => []) := by
  induction l with
  | nil => rfl
  | cons net rest ih =>
    simp only [build_static_routes_go]
    by_cases h1 : pyStartsWith (pyUpper net.GroupName) BMC
    · by_cases h2 : net.IPv4.Gateway = ""
      · rw [if_pos h1, if_neg (by simp [h2]),
            List.find?_cons_of_neg _ (by simp [h1, h2])]
        exact ih
      · rw [if_pos h1, if_pos h2, List.find?_cons_of_pos _ (by simp [h1, h2])]
    · rw [if_neg h1, List.find?_cons_of_neg _ (by simp [h1])]
      exact ih

/-! ## Claim theorems -/

/-- Claim C1, counterexample: two BMC-relevant supernets both carrying the
non-hardcoded VLAN id 100 produce two entries with vlan_id 100, so the list is
not duplicate-free. -/
theorem build_vlans_duplicate_ids_counterexample :
    (build_vlans dupVlanInput).map (fun v => v.vlan_id) = [2, 99, 100, 100]
    ∧ ¬ ((build_vlans dupVlanInput).map (fun v => v.vlan_id)).Nodup := by
  constructor
  · rfl
  · rw [show (build_vlans dupVlanInput).map (fun v => v.vlan_id) = [2, 99, 100, 100] from rfl]
    decide

/-- Claim C1 (amended): for every topology, `_build_vlans` returns a list sorted
ascending by vlan_id (non-strictly), and each hardcoded id (2, 99) occurs
exactly once — supernets duplicating a hardcoded id are skipped — but two
supernets sharing the same non-hardcoded VLAN id both produce entries, so the
list need not be duplicate-free. -/
theorem build_vlans_sorted_and_hardcoded_once (input_data : InputData) :
    List.Sorted vlanLE (build_vlans input_data)
    ∧ List.countP (fun v => v.vlan_id == 2) (build_vlans input_data) = 1
    ∧ List.countP (fun v => v.vlan_id == 99) (build_vlans input_data) = 1 := by
  refine ⟨List.sorted_insertionSort vlanLE _, ?_, ?_⟩
  · rw [build_vlans, build_vlans_from,
        List.Perm.countP_eq _ (List.perm_insertionSort vlanLE _), List.countP_append,
        countP_vlanEntryOf_hardcoded_zero 2 (by decide)]
    decide
  · rw [build_vlans, build_vlans_from,
        List.Perm.countP_eq _ (List.perm_insertionSort vlanLE _), List.countP_append,
        countP_vlanEntryOf_hardcoded_zero 99 (by decide)]
    decide

/-- Claim C2: every `_build_vlans` result contains the hardcoded VLAN 2 entry
(marked shutdown) and the hardcoded VLAN 99 entry, whatever the supernets; and
iterating the (explicit-state) `_build_vlans` any number of times leaves the
conversion state — in particular the global `BMC_HARDCODED_VLANS` table —
exactly as it was. -/
theorem bmc_hardcoded_vlans_present_and_table_preserved
    (input_data : InputData) (st : ConvState) (n : Nat) :
    ({ vlan_id := 2, name := "UNUSED_VLAN", shutdown := some true } : VlanEntry)
        ∈ build_vlans input_data
    ∧ ({ vlan_id := 99, name := "NATIVE_VLAN" } : VlanEntry) ∈ build_vlans input_data
    ∧ (fun s => (build_vlansS s).1)^[n] st = st := by
  refine ⟨?_, ?_, Function.iterate_fixed rfl n⟩
  · rw [build_vlans, build_vlans_from, List.mem_insertionSort]
    exact List.mem_append_left _ (by decide)
  · rw [build_vlans, build_vlans_from, List.mem_insertionSort]
    exact List.mem_append_left _ (by decide)

/-- Claim C3, counterexample: a BMC management supernet with SwitchSVI, a
gateway, and the unparseable network string "not-an-ip" does not make the
conversion fail — `_build_vlans` returns normally and silently substitutes the
Gateway for the SVI ip. -/
theorem bmc_svi_parse_failure_not_fatal_counterexample :
    parseIPv4Address "not-an-ip" = none
    ∧ build_vlans badNetworkInput =
        [{ vlan_id := 2, name := "UNUSED_VLAN", shutdown := some true },
         { vlan_id := 99, name := "NATIVE_VLAN" },
         { vlan_id := 125, name := "BMC_Mgmt_125",
           interface := some { ip := "10.1.1.1", cidr := 24, mtu := 9216 } }] :=
  ⟨rfl, rfl⟩

/-- Claim C3 (amended): when the Network/Cidr of a BMC management supernet with
SwitchSVI and a non-empty Gateway cannot be parsed, the converter catches the
error and uses the Gateway string itself as the SVI ip (with the range's Cidr
and jumbo MTU); no error reaches the caller. -/
theorem bmc_svi_parse_failure_falls_back_to_gateway (net : Supernet) (e : VlanEntry)
    (hsvi : net.IPv4.SwitchSVI = true)
    (hgw : net.IPv4.Gateway ≠ "")
    (hparse : parseNetworkBroadcast net.IPv4.Network (net.IPv4.Cidr.getD 24) = none)
    (hbmc : pyStartsWith (pyUpper net.GroupName) BMC = true)
    (he : vlanEntryOf (hardcodedIds BMC_HARDCODED_VLANS) net = some e) :
    e.interface = some { ip := net.IPv4.Gateway, cidr := net.IPv4.Cidr.getD 24,
                         mtu := JUMBO_MTU } := by
  simp only [vlanEntryOf] at he
  split at he
  · exact absurd he (by simp)
  · split at he
    · rw [Option.some.injEq] at he
      subst he
      show (if pyStartsWith (pyUpper net.GroupName) BMC && net.IPv4.SwitchSVI
              then sviFor net.IPv4 else none) = _
      rw [hbmc, hsvi]
      show sviFor net.IPv4 = _
      simp [sviFor, hparse, hgw]
    · exact absurd he (by simp)

/-- Witness for claim C3's amended theorem at the concrete supernet
`badNetworkSupernet`. -/
theorem bmc_svi_parse_failure_falls_back_to_gateway_witness :
    ({ vlan_id := 125, name := "BMC_Mgmt_125",
       interface := some { ip := "10.1.1.1", cidr := 24, mtu := 9216 } } : VlanEntry).interface
      = some { ip := "10.1.1.1", cidr := 24, mtu := 9216 } :=
  bmc_svi_parse_failure_falls_back_to_gateway badNetworkSupernet _
    rfl (by decide) rfl rfl rfl

/-- Claim C4, counterexample: the supernet `0.0.0.0/32` is parseable and its
broadcast address is `0.0.0.0`, but `broadcast_address - 1` underflows (Python
raises `AddressValueError`, a `ValueError`, inside the same `try`), so the
emitted SVI ip is the gateway `10.9.9.9` — not a broadcast-minus-one address
under either the wraparound (`255.255.255.255`) or truncating (`0.0.0.0`)
reading. -/
theorem bmc_svi_underflow_counterexample :
    parseNetworkBroadcast zeroNetworkSupernet.IPv4.Network
        (zeroNetworkSupernet.IPv4.Cidr.getD 24) = some 0
    ∧ build_vlans zeroNetworkInput =
        [{ vlan_id := 2, name := "UNUSED_VLAN", shutdown := some true },
         { vlan_id := 70, name := "BMC_Zero",
           interface := some { ip := "10.9.9.9", cidr := 32, mtu := 9216 } },
         { vlan_id := 99, name := "NATIVE_VLAN" }]
    ∧ ("10.9.9.9" : String) ≠ "255.255.255.255"
    ∧ ("10.9.9.9" : String) ≠ "0.0.0.0" :=
  ⟨rfl, rfl, by decide, by decide⟩

/-- Claim C4 (amended): for every BMC-prefixed supernet with SwitchSVI, a
non-empty Gateway, a parseable Network/Cidr whose broadcast address is not
`0.0.0.0`, and a valid non-hardcoded VLAN id, the emitted VLAN entry carries an
interface with ip = broadcast address minus one, cidr = the range's Cidr, and
mtu = the jumbo constant 9216. -/
theorem bmc_svi_broadcast_minus_one (input_data : InputData) (net : Supernet) (bcast : Nat)
    (hnet : net ∈ input_data.Supernets)
    (hbmc : pyStartsWith (pyUpper net.GroupName) BMC = true)
    (hsvi : net.IPv4.SwitchSVI = true)
    (hgw : net.IPv4.Gateway ≠ "")
    (hparse : parseNetworkBroadcast net.IPv4.Network (net.IPv4.Cidr.getD 24) = some bcast)
    (hbz : bcast ≠ 0)
    (hid0 : vlanIdOf net.IPv4 ≠ 0)
    (hidh : vlanIdOf net.IPv4 ∉ hardcodedIds BMC_HARDCODED_VLANS) :
    ({ vlan_id := vlanIdOf net.IPv4,
       name := net.IPv4.Name.getD ("VLAN_" ++ toString (vlanIdOf net.IPv4)),
       interface := some { ip := ipToString (bcast - 1), cidr := net.IPv4.Cidr.getD 24,
                           mtu := JUMBO_MTU } } : VlanEntry) ∈ build_vlans input_data := by
  rw [build_vlans, build_vlans_from, List.mem_insertionSort]
  refine List.mem_append_right _ (List.mem_filterMap.mpr ⟨net, hnet, ?_⟩)
  have h2 : is_bmc_relevant_vlan (pyUpper net.GroupName) = true := by
    simp [is_bmc_relevant_vlan, BMC_RELEVANT_GROUPS, hbmc]
  simp only [vlanEntryOf]
  rw [if_neg (by push_neg; exact ⟨hid0, hidh⟩), if_pos h2, Option.some.injEq]
  rw [hbmc, hsvi]
  show ({ vlan_id := _, name := _, interface := sviFor net.IPv4 } : VlanEntry) = _
  simp [sviFor, hparse, hgw, hbz, ipToString_ne_empty]

/-- Witness for claim C4's amended theorem: network 10.0.0.0/24 with gateway
10.0.0.1 — the broadcast address is 10.0.0.255 and the emitted SVI ip is
10.0.0.254. -/
theorem bmc_svi_broadcast_minus_one_witness :
    ({ vlan_id := 125, name := "BMC_Mgmt_125",
       interface := some { ip := "10.0.0.254", cidr := 24, mtu := 9216 } } : VlanEntry)
      ∈ build_vlans goodSviInput := by
  have h := bmc_svi_broadcast_minus_one goodSviInput goodSviSupernet 167772415
    (by decide) rfl rfl (by decide) rfl (by decide) (by decide) (by decide)
  exact h

/-- Claim C5: the builder's pattern normalization sends every case-variant of
"HyperConverged" to the internal token "fully_converged", every case-variant of
"Switched" to "switched", and every case-variant of "Switchless" to
"switchless". -/
theorem deployment_pattern_normalization (s : String) :
    (pyLower s = "hyperconverged" → normalize_deployment_pattern s = "fully_converged")
    ∧ (pyLower s = "switched" → normalize_deployment_pattern s = "switched")
    ∧ (pyLower s = "switchless" → normalize_deployment_pattern s = "switchless") := by
  refine ⟨fun h => ?_, fun h => ?_, fun h => ?_⟩
  · simp only [normalize_deployment_pattern]; rw [h, if_pos (by decide)]; rfl
  · simp only [normalize_deployment_pattern]; rw [h, if_neg (by decide)]
  · simp only [normalize_deployment_pattern]; rw [h, if_neg (by decide)]

/-- Witness for claim C5 at the three customer-facing spellings. -/
theorem deployment_pattern_normalization_witness :
    normalize_deployment_pattern "HyperConverged" = "fully_converged"
    ∧ normalize_deployment_pattern "Switched" = "switched"
    ∧ normalize_deployment_pattern "Switchless" = "switchless" :=
  ⟨(deployment_pattern_normalization "HyperConverged").1 rfl,
   (deployment_pattern_normalization "Switched").2.1 rfl,
   (deployment_pattern_normalization "Switchless").2.2 rfl⟩

/-- Claim C6: for every gateway, the redundancy block emitted for an
infrastructure VLAN has priority 150 (the fixed active constant) on TOR1 and
140 (the fixed standby constant) on TOR2, with the virtual IP equal to the
range's gateway in both cases. -/
theorem tor_redundancy_priorities (gw : String) :
    (tor_redundancy TOR1 gw).priority = 150
    ∧ (tor_redundancy TOR2 gw).priority = 140
    ∧ (tor_redundancy TOR1 gw).virtual_ip = gw
    ∧ (tor_redundancy TOR2 gw).virtual_ip = gw :=
  ⟨rfl, rfl, rfl, rfl⟩

/-- Claim C7: `classify_vlan_group` returns the symbol of the first prefix of
the ordered table (HNVPA→C, INFRA→M, TENANT→C, L3FORWARD→C, STORAGE→S,
UNUSED→UNUSED, NATIVE→NATIVE) that the upper-cased label starts with, and
`none` exactly when no table prefix matches. -/
theorem classify_vlan_group_first_prefix (s : String) :
    classify_vlan_group s
      = (VLAN_GROUP_MAP.find? (fun e => pyStartsWith (pyUpper s) e.1)).map (fun e => e.2)
    ∧ (classify_vlan_group s = none
        ↔ VLAN_GROUP_MAP.all (fun e => !(pyStartsWith (pyUpper s) e.1)) = true) := by
  have h := classifyGo_eq_find (pyUpper s) VLAN_GROUP_MAP
  refine ⟨h, ?_⟩
  rw [classify_vlan_group, h]
  simp [List.find?_eq_none, List.all_eq_true]

/-- Claim C8: `_build_static_routes` returns exactly one default route toward
the first BMC-group gateway found in the Supernets list, and the empty list
(no error) exactly when no BMC-prefixed supernet has a non-empty gateway. -/
theorem build_static_routes_first_bmc_gateway (input_data : InputData) :
    build_static_routes input_data =
      (match input_data.Supernets.find?
          (fun n => pyStartsWith (pyUpper n.GroupName) BMC && n.IPv4.Gateway != "") with
       | some n => [{ route_prefix := "0.0.0.0/0", next_hop := n.IPv4.Gateway,
                      description := "BMC default gateway" }]
       | none => [])
    ∧ (build_static_routes input_data = []
        ↔ input_data.Supernets.all
            (fun n => !(pyStartsWith (pyUpper n.GroupName) BMC)
                      || n.IPv4.Gateway == "") = true) := by
  have h := build_static_routes_go_eq_find input_data.Supernets
  refine ⟨h, ?_⟩
  rw [build_static_routes, h]
  rcases hf : input_data.Supernets.find?
      (fun n => pyStartsWith (pyUpper n.GroupName) BMC && n.IPv4.Gateway != "") with _ | n
  · rw [hf]
    simp only [List.find?_eq_none] at hf
    simp only [List.all_eq_true]
    constructor
    · intro _ n hn
      have hp := hf n hn
      cases hb : pyStartsWith (pyUpper n.GroupName) BMC with
      | false => simp [hb]
      | true =>
        simp only [hb, Bool.true_and] at hp
        simp only [hb, Bool.not_true, Bool.false_or]
        simpa using hp
    · intro _
      trivial
  · rw [hf]
    have hpn := List.find?_some hf
    have hmem := List.mem_of_find?_eq_some hf
    simp only [Bool.and_eq_true, bne_iff_ne] at hpn
    constructor
    · intro he
      exact absurd he (by simp)
    · intro ha
      have := List.all_eq_true.mp ha n hmem
      simp only [Bool.or_eq_true, Bool.not_eq_true', beq_iff_eq] at this
      rcases this with hb | hb
      · rw [hpn.1] at hb
        cases hb
      · exact absurd hb hpn.2

/-- Claim C9: `_build_interfaces` fails (with the fatal "No common interfaces"
error) exactly when the template's common-interfaces list is empty or missing,
and otherwise returns a list element-for-element equal to that section. -/
theorem build_interfaces_error_iff_empty (template_data : TemplateData) :
    (template_data.common.isEmpty = true
       ∧ build_interfaces template_data
           = Except.error "No common interfaces found in BMC template")
    ∨ (template_data.common.isEmpty = false
       ∧ build_interfaces template_data = Except.ok template_data.common) := by
  by_cases h : template_data.common.isEmpty
  · exact Or.inl ⟨h, by simp [build_interfaces, h]⟩
  · exact Or.inr ⟨by simpa using h, by simp [build_interfaces, h]⟩

/-- Claim C10: no BMC build step mutates its inputs — in the explicit-state
embedding, `_build_switch_info`, `_build_vlans`, `_build_static_routes`,
`_build_interfaces` and `_build_port_channels` all return the conversion state
(topology, template, global table) exactly as received, and their results are
independent values. -/
theorem bmc_builders_preserve_inputs (st : ConvState) (switch_data : SwitchData) :
    (build_switch_infoS st switch_data).1 = st
    ∧ (build_vlansS st).1 = st
    ∧ (build_static_routesS st).1 = st
    ∧ (build_interfacesS st).1 = st
    ∧ (build_port_channelsS st).1 = st :=
  ⟨rfl, rfl, rfl, rfl, rfl⟩

end AzLocal
